import Mathlib

/-!
Verification of the `deet` debugger's Session Controller (`src/debugger.rs`)
against its natural-language specification.

The controller logic of `Debugger::run`, `Debugger::new`, `Debugger::continue_exec`
and the free function `parse_address` are embedded shallowly below.  The
behaviour of the external collaborator modules (`Inferior`, `DwarfData`),
which are not part of this file's source, is abstracted into per-command
oracle inputs (`Env`, the `fromFile` argument of `Debugger.new`), so the
theorems quantify over every possible outcome of those calls.
-/

namespace Deet

/-- Hexadecimal digit test, as `usize::from_str_radix(_, 16)` accepts:
`0-9`, `a-f`, `A-F`. -/
def isHexDigit (c : Char) : Bool :=
  c.isDigit || ('a' ≤ c && c ≤ 'f') || ('A' ≤ c && c ≤ 'F')

/-- Value of a hexadecimal digit. -/
def hexVal (c : Char) : Nat :=
  if c.isDigit then c.toNat - '0'.toNat
  else if 'a' ≤ c && c ≤ 'f' then c.toNat - 'a'.toNat + 10
  else c.toNat - 'A'.toNat + 10

/-- Embedding of Rust's `usize::from_str_radix(s, 16).ok()` on a 64-bit
target: an optional leading `+` sign (a `-` is not accepted for an unsigned
type), then a non-empty run of hexadecimal digits; overflow past
`2^64 - 1` fails. -/
def fromStrRadix16 (s : List Char) : Option Nat :=
  let digits := match s with
    | '+' :: rest => rest
    | _ => s
  if digits.isEmpty then none
  else if digits.all isHexDigit then
    let v := digits.foldl (fun acc c => acc * 16 + hexVal c) 0
    if v < 2 ^ 64 then some v else none
  else none

/-- Embedding of `parse_address` (`src/debugger.rs:26-41`): strip an
optional leading `*` sigil, then an optional `0x`/`0X` prefix (the source
tests the lowercased string, so `0X` is accepted), and parse the remainder
as hexadecimal. -/
def parse_address (addr : String) : Option Nat :=
  let a0 := addr.data
  let a1 := if (a0.map Char.toLower).take 1 = ['*'] then a0.drop 1 else a0
  let a2 := if (a1.map Char.toLower).take 2 = ['0', 'x'] then a1.drop 2 else a1
  fromStrRadix16 a2

end Deet

namespace Deet

/-- A handle on a traced child process (module `inferior`, external to this
source file): only its identity matters to the Session Controller logic. -/
structure Inferior where
  pid : Nat
deriving DecidableEq, Repr

/-- `Status` as returned by `Inferior::continue_exec` (matched at
`src/debugger.rs:131-146`). -/
inductive Status where
  | Exited (exit_status_code : Int)
  | Signaled (signal : String)
  | Stopped (signal : String) (rip : Nat)
deriving DecidableEq, Repr

/-- The commands dispatched by `Debugger::run` (`src/debugger.rs:77-124`). -/
inductive DebuggerCommand where
  | Run (args : List String)
  | Continue
  | Backtrace
  | Quit
  | Breakpoint (spec : String)
deriving DecidableEq, Repr

/-- The Session Controller's mutable state: the single `Option<Inferior>`
slot and the breakpoint table (`src/debugger.rs:17-24`), plus a ghost
record `live` of the pids of OS child processes currently alive, used to
state the exclusivity invariant. -/
structure DebuggerState where
  inferior : Option Inferior
  breakpoints : List Nat
  live : List Nat
deriving DecidableEq, Repr

/-- Outcomes of the external collaborator calls a single command dispatch
can make.  Modelled from the spec: the `Inferior` module is not part of
this source file, so the result of each of its fallible operations
(`kill`, `Inferior::new`, `continue_exec`, `print_backtrace`) is an oracle
input; `launch` receives the breakpoint list, mirroring
`Inferior::new(&self.target, &args, &self.breakpoints)`. -/
structure Env where
  killResult : Except String Unit
  launch : List Nat → Option Inferior
  contResult : Except String Status
  backtraceResult : Except String Unit

/-- Result of dispatching one command: continue the loop in a new state
(with the lines printed and the kill/launch events in chronological
order), leave the loop (`Quit`), or abort the whole debugger process
(a Rust `panic!` from `unwrap`/`expect`). -/
inductive StepResult where
  | next (s : DebuggerState) (out : List String) (killed launched : List Nat)
  | quit (s : DebuggerState) (out : List String) (killed : List Nat)
  | panic (msg : String)
deriving DecidableEq, Repr

/-- Embedding of `Debugger::continue_exec` (`src/debugger.rs:128-152`).
`getLine` models the immutable `debug_data.get_line_from_addr`.  On
`Exited`/`Signaled` the inferior slot is cleared and the child is no
longer live; on `Stopped` the signal is reported and a source line is
printed exactly when the Symbol Store resolves one; a trace-control
error is printed and the state is left as last known. -/
def continueExec (getLine : Nat → Option String) (contResult : Except String Status)
    (s : DebuggerState) : DebuggerState × List String :=
  match s.inferior with
  | some inf =>
    match contResult with
    | .ok (.Exited exit_status_code) =>
        ({ s with inferior := none, live := s.live.filter (· ≠ inf.pid) },
         ["Child exited (status " ++ toString exit_status_code ++ ")"])
    | .ok (.Signaled signal) =>
        ({ s with inferior := none, live := s.live.filter (· ≠ inf.pid) },
         ["Child exited (signal " ++ signal ++ ")"])
    | .ok (.Stopped signal rip) =>
        (s, ("Child stopped (signal " ++ signal ++ ")") ::
            ((getLine rip).map (fun line => "Stopped at " ++ line)).toList)
    | .error err =>
        (s, ["Inferior can't be woken up and execute: " ++ err])
  | none => (s, ["inferior_continue_exec failed: there is no inferior"])

/-- Embedding of one iteration of the dispatch loop in `Debugger::run`
(`src/debugger.rs:77-124`), for one already-parsed command. -/
def stepCommand (getLine : Nat → Option String) (env : Env)
    (cmd : DebuggerCommand) (s : DebuggerState) : StepResult :=
  match cmd with
  | .Run _args =>
      match s.inferior with
      | some inf =>
          match env.killResult with
          | .ok _ =>
              let s1 : DebuggerState := { s with live := s.live.filter (· ≠ inf.pid) }
              match env.launch s1.breakpoints with
              | some newInf =>
                  let s2 : DebuggerState :=
                    { s1 with inferior := some newInf, live := s1.live ++ [newInf.pid] }
                  let r := continueExec getLine env.contResult s2
                  .next r.1 r.2 [inf.pid] [newInf.pid]
              | none => .next s1 ["Error starting subprocess"] [inf.pid] []
          | .error err => .panic ("inferior.kill wasn't running: " ++ err)
      | none =>
          match env.launch s.breakpoints with
          | some newInf =>
              let s2 : DebuggerState :=
                { s with inferior := some newInf, live := s.live ++ [newInf.pid] }
              let r := continueExec getLine env.contResult s2
              .next r.1 r.2 [] [newInf.pid]
          | none => .next s ["Error starting subprocess"] [] []
  | .Continue =>
      match s.inferior with
      | some _ =>
          let r := continueExec getLine env.contResult s
          .next r.1 r.2 [] []
      | none => .next s ["There is no inferior running"] [] []
  | .Backtrace =>
      match s.inferior with
      | some _ =>
          match env.backtraceResult with
          | .ok _ => .next s [] [] []
          | .error err => .panic ("called Result::unwrap() on an Err value: " ++ err)
      | none => .next s [] [] []
  | .Quit =>
      match s.inferior with
      | some inf =>
          match env.killResult with
          | .ok _ => .quit { s with live := s.live.filter (· ≠ inf.pid) } [] [inf.pid]
          | .error err => .panic ("inferior.kill wasn't running: " ++ err)
      | none => .quit s [] []
  | .Breakpoint spec =>
      match parse_address spec with
      | some addr =>
          .next { s with breakpoints := s.breakpoints ++ [addr] }
            ["Set breakpoint " ++ toString s.breakpoints.length ++ " at " ++ toString addr]
            [] []
      | none => .next s ["fail to parse a usize from a hexadecimal string"] [] []

/-- The two error kinds of `DwarfData::from_file`
(matched at `src/debugger.rs:47-57`). -/
inductive DwarfError where
  | ErrorOpeningFile
  | DwarfFormatError (err : String)
deriving DecidableEq, Repr

/-- Result of `Debugger::new`: a fully initialized debugger, or process
exit with a code and a diagnostic message. -/
inductive NewResult where
  | ok (d : DebuggerState)
  | exit (code : Nat) (msg : String)
deriving DecidableEq, Repr

/-- Embedding of `Debugger::new` (`src/debugger.rs:46-72`).  `fromFile`
is the outcome of the external call `DwarfData::from_file(target)`.
On either error kind the process exits with code 1 after printing a
diagnostic; on success the debugger starts with no inferior and an empty
breakpoint table. -/
def Debugger.new (target : String) (fromFile : Except DwarfError Unit) : NewResult :=
  match fromFile with
  | .ok _ => .ok { inferior := none, breakpoints := [], live := [] }
  | .error .ErrorOpeningFile => .exit 1 ("Could not open file " ++ target)
  | .error (.DwarfFormatError err) =>
      .exit 1 ("Could not debugging symbols from " ++ target ++ ": " ++ err)

end Deet

namespace Deet

/-- A concrete oracle used to instantiate witnesses: kill and backtrace
succeed, launching fails, resuming errors. -/
def envDefault : Env :=
  { killResult := .ok ()
    launch := fun _ => none
    contResult := .error "EIO"
    backtraceResult := .ok () }

/-- A concrete symbol store resolving no address. -/
def glNone : Nat → Option String := fun _ => none

/-- C1: the address parser accepts `*0x...`, `0x...` and bare hex forms,
all yielding the same address, and rejects a non-hexadecimal input. -/
theorem parse_address_forms :
    parse_address "*0x400080" = some 0x400080 ∧
    parse_address "0x400080" = some 0x400080 ∧
    parse_address "400080" = some 0x400080 ∧
    parse_address "zz" = none := by
  refine ⟨?_, ?_, ?_, ?_⟩ <;> decide

/-- C2 counterexample: from a state whose Breakpoint Table already holds
address `4096`, the command `break 0x1000` is not rejected — the duplicate
is appended and the table ends with two entries sharing address `4096`. -/
theorem breakpoint_duplicate_appended :
    stepCommand glNone envDefault (.Breakpoint "0x1000")
        { inferior := none, breakpoints := [4096], live := [] } =
      .next { inferior := none, breakpoints := [4096, 4096], live := [] }
        ["Set breakpoint 1 at 4096"] [] [] ∧
    ¬ ([4096, 4096] : List Nat).Nodup := by
  exact ⟨by decide, by decide⟩

/-- C2 amended: a breakpoint specification that parses is appended to the
Breakpoint Table unconditionally — no duplicate check is performed, so the
table may contain two entries with the same address. -/
theorem breakpoint_add_appends_unconditionally (getLine : Nat → Option String)
    (env : Env) (spec : String) (s : DebuggerState) (addr : Nat)
    (h : parse_address spec = some addr) :
    stepCommand getLine env (.Breakpoint spec) s =
      .next { s with breakpoints := s.breakpoints ++ [addr] }
        ["Set breakpoint " ++ toString s.breakpoints.length ++ " at " ++ toString addr]
        [] [] := by
  simp [stepCommand, h]

/-- Witness for the C2 amended theorem at a state already holding the
address being added. -/
theorem breakpoint_add_appends_unconditionally_witness :
    parse_address "0x1000" = some 4096 ∧
    stepCommand glNone envDefault (.Breakpoint "0x1000")
        { inferior := none, breakpoints := [4096], live := [] } =
      .next { inferior := none, breakpoints := [4096] ++ [4096], live := [] }
        ["Set breakpoint " ++ toString ([4096] : List Nat).length ++ " at " ++ toString (4096 : Nat)]
        [] [] :=
  ⟨by decide,
   breakpoint_add_appends_unconditionally glNone envDefault "0x1000"
     { inferior := none, breakpoints := [4096], live := [] } 4096 (by decide)⟩

/-- C3 counterexample: with a live inferior, a failing `print_backtrace`
call during the Backtrace command is not printed-and-continued — the
embedded `unwrap` panics, terminating the debugger process. -/
theorem backtrace_failure_panics :
    stepCommand glNone
        { envDefault with backtraceResult := .error "ESRCH" }
        .Backtrace { inferior := some ⟨7⟩, breakpoints := [], live := [7] } =
      .panic "called Result::unwrap() on an Err value: ESRCH" := by
  decide

/-- C3 amended: with a live inferior, a resume/continue trace-control
failure is printed as an error and the command loop re-prompts, but a
failing backtrace call panics (Rust `unwrap`) and a failing kill call
during Run or Quit panics (Rust `expect`), terminating the debugger
process — only `continue_exec` errors are print-and-continue. -/
theorem trace_failure_split_behavior (getLine : Nat → Option String)
    (env : Env) (args : List String) (s : DebuggerState) (inf : Inferior)
    (errC errB errK : String)
    (hinf : s.inferior = some inf)
    (hc : env.contResult = .error errC)
    (hb : env.backtraceResult = .error errB)
    (hk : env.killResult = .error errK) :
    stepCommand getLine env .Continue s =
      .next s ["Inferior can't be woken up and execute: " ++ errC] [] [] ∧
    stepCommand getLine env .Backtrace s =
      .panic ("called Result::unwrap() on an Err value: " ++ errB) ∧
    stepCommand getLine env (.Run args) s =
      .panic ("inferior.kill wasn't running: " ++ errK) ∧
    stepCommand getLine env .Quit s =
      .panic ("inferior.kill wasn't running: " ++ errK) := by
  simp [stepCommand, continueExec, hinf, hc, hb, hk]

/-- A concrete oracle on which every trace-control call fails. -/
def envAllErr : Env :=
  { killResult := .error "EPERM"
    launch := fun _ => none
    contResult := .error "EIO"
    backtraceResult := .error "ESRCH" }

/-- Witness for the C3 amended theorem. -/
theorem trace_failure_split_behavior_witness :
    (({ inferior := some ⟨7⟩, breakpoints := [], live := [7] } : DebuggerState).inferior
        = some ⟨7⟩) ∧
    envAllErr.contResult = .error "EIO" ∧
    envAllErr.backtraceResult = .error "ESRCH" ∧
    envAllErr.killResult = .error "EPERM" ∧
    (stepCommand glNone envAllErr
        .Continue { inferior := some ⟨7⟩, breakpoints := [], live := [7] } =
      .next { inferior := some ⟨7⟩, breakpoints := [], live := [7] }
        ["Inferior can't be woken up and execute: " ++ "EIO"] [] [] ∧
    stepCommand glNone envAllErr
        .Backtrace { inferior := some ⟨7⟩, breakpoints := [], live := [7] } =
      .panic ("called Result::unwrap() on an Err value: " ++ "ESRCH") ∧
    stepCommand glNone envAllErr
        (.Run []) { inferior := some ⟨7⟩, breakpoints := [], live := [7] } =
      .panic ("inferior.kill wasn't running: " ++ "EPERM") ∧
    stepCommand glNone envAllErr
        .Quit { inferior := some ⟨7⟩, breakpoints := [], live := [7] } =
      .panic ("inferior.kill wasn't running: " ++ "EPERM")) :=
  ⟨rfl, rfl, rfl, rfl,
   trace_failure_split_behavior glNone envAllErr []
     { inferior := some ⟨7⟩, breakpoints := [], live := [7] } ⟨7⟩
     "EIO" "ESRCH" "EPERM" rfl rfl rfl rfl⟩

/-- C4: Run with a live inferior kills it first (the kill event precedes
the launch event; the old pid leaves the live set before the new pid
enters it), launches a new inferior from the current breakpoint set, and
resumes it; when the resume stops, exactly one inferior is live afterward
— the new one — and it is the one held in the slot. -/
theorem run_replaces_inferior_exclusively (getLine : Nat → Option String)
    (env : Env) (args : List String) (s : DebuggerState)
    (inf newInf : Inferior) (sig : String) (rip : Nat)
    (hinf : s.inferior = some inf)
    (hlive : s.live = [inf.pid])
    (hkill : env.killResult = .ok ())
    (hlaunch : env.launch s.breakpoints = some newInf)
    (hcont : env.contResult = .ok (.Stopped sig rip)) :
    stepCommand getLine env (.Run args) s =
      .next { s with inferior := some newInf, live := [newInf.pid] }
        (("Child stopped (signal " ++ sig ++ ")") ::
          ((getLine rip).map (fun line => "Stopped at " ++ line)).toList)
        [inf.pid] [newInf.pid] := by
  simp [stepCommand, continueExec, hinf, hlive, hkill, hlaunch, hcont]

/-- A concrete oracle whose launch yields inferior pid 2 and whose resume
stops with SIGTRAP at address 100. -/
def envStop : Env :=
  { killResult := .ok ()
    launch := fun _ => some ⟨2⟩
    contResult := .ok (.Stopped "SIGTRAP" 100)
    backtraceResult := .ok () }

/-- Witness for C4. -/
theorem run_replaces_inferior_exclusively_witness :
    (({ inferior := some ⟨1⟩, breakpoints := [4096], live := [1] } : DebuggerState).inferior
        = some ⟨1⟩) ∧
    (({ inferior := some ⟨1⟩, breakpoints := [4096], live := [1] } : DebuggerState).live
        = [(1 : Nat)]) ∧
    envStop.killResult = .ok () ∧
    envStop.launch [4096] = some ⟨2⟩ ∧
    envStop.contResult = .ok (.Stopped "SIGTRAP" 100) ∧
    stepCommand glNone envStop
        (.Run []) { inferior := some ⟨1⟩, breakpoints := [4096], live := [1] } =
      .next { inferior := some ⟨2⟩, breakpoints := [4096], live := [2] }
        (("Child stopped (signal " ++ "SIGTRAP" ++ ")") ::
          ((glNone 100).map (fun line => "Stopped at " ++ line)).toList)
        [1] [2] :=
  ⟨rfl, rfl, rfl, rfl, rfl,
   run_replaces_inferior_exclusively glNone envStop [] _ ⟨1⟩ ⟨2⟩ "SIGTRAP" 100
     rfl rfl rfl rfl rfl⟩

/-- C5: when a resume reports `Exited` or `Signaled`, the Session
Controller clears the inferior slot to `none` and prints the exit code or
signal; via the Continue command this yields an ordinary `next` result
(the loop re-prompts), not an error or abort. -/
theorem terminal_status_clears_inferior (getLine : Nat → Option String)
    (env : Env) (s : DebuggerState) (inf : Inferior) (code : Int) (sig : String)
    (hinf : s.inferior = some inf)
    (henv : env.contResult = .ok (.Exited code)) :
    continueExec getLine (.ok (.Exited code)) s =
      ({ s with inferior := none, live := s.live.filter (· ≠ inf.pid) },
        ["Child exited (status " ++ toString code ++ ")"]) ∧
    continueExec getLine (.ok (.Signaled sig)) s =
      ({ s with inferior := none, live := s.live.filter (· ≠ inf.pid) },
        ["Child exited (signal " ++ sig ++ ")"]) ∧
    stepCommand getLine env .Continue s =
      .next { s with inferior := none, live := s.live.filter (· ≠ inf.pid) }
        ["Child exited (status " ++ toString code ++ ")"] [] [] := by
  simp [stepCommand, continueExec, hinf, henv]

/-- A concrete oracle whose resume reports a normal exit with status 0. -/
def envExit : Env := { envDefault with contResult := .ok (.Exited 0) }

/-- Witness for C5. -/
theorem terminal_status_clears_inferior_witness :
    (({ inferior := some ⟨7⟩, breakpoints := [], live := [7] } : DebuggerState).inferior
        = some ⟨7⟩) ∧
    envExit.contResult = .ok (.Exited 0) ∧
    stepCommand glNone envExit .Continue
        { inferior := some ⟨7⟩, breakpoints := [], live := [7] } =
      .next { inferior := none, breakpoints := [],
              live := ([7] : List Nat).filter (· ≠ (7 : Nat)) }
        ["Child exited (status " ++ toString (0 : Int) ++ ")"] [] [] :=
  ⟨rfl, rfl,
   (terminal_status_clears_inferior glNone envExit
     { inferior := some ⟨7⟩, breakpoints := [], live := [7] } ⟨7⟩ 0 "x"
     rfl rfl).2.2⟩

/-- C6: on a `Stopped` resume result the controller reports the signal,
and prints `Stopped at <line>` exactly when the Symbol Store resolves a
source line for the reported program counter. -/
theorem stopped_reports_signal_and_line (getLine : Nat → Option String)
    (s : DebuggerState) (inf : Inferior) (sig : String) (rip : Nat)
    (hinf : s.inferior = some inf) :
    continueExec getLine (.ok (.Stopped sig rip)) s =
      (s, ("Child stopped (signal " ++ sig ++ ")") ::
          ((getLine rip).map (fun line => "Stopped at " ++ line)).toList) ∧
    (∀ line, getLine rip = some line →
      (continueExec getLine (.ok (.Stopped sig rip)) s).2 =
        ["Child stopped (signal " ++ sig ++ ")", "Stopped at " ++ line]) ∧
    (getLine rip = none →
      (continueExec getLine (.ok (.Stopped sig rip)) s).2 =
        ["Child stopped (signal " ++ sig ++ ")"]) := by
  refine ⟨by simp [continueExec, hinf], ?_, ?_⟩
  · intro line hl
    simp [continueExec, hinf, hl]
  · intro hl
    simp [continueExec, hinf, hl]

/-- A concrete symbol store resolving every address to `sample.c:3`. -/
def glSample : Nat → Option String := fun _ => some "sample.c:3"

/-- Witness for C6. -/
theorem stopped_reports_signal_and_line_witness :
    (({ inferior := some ⟨7⟩, breakpoints := [], live := [7] } : DebuggerState).inferior
        = some ⟨7⟩) ∧
    glSample 100 = some "sample.c:3" ∧
    (continueExec glSample (.ok (.Stopped "SIGTRAP" 100))
        { inferior := some ⟨7⟩, breakpoints := [], live := [7] }).2 =
      ["Child stopped (signal " ++ "SIGTRAP" ++ ")", "Stopped at " ++ "sample.c:3"] :=
  ⟨rfl, rfl,
   (stopped_reports_signal_and_line glSample
     { inferior := some ⟨7⟩, breakpoints := [], live := [7] } ⟨7⟩ "SIGTRAP" 100
     rfl).2.1 "sample.c:3" rfl⟩

/-- C7: a breakpoint specification that fails to parse is rejected with a
user-visible error, the whole state (Breakpoint Table included) is left
unchanged, and the result is a `next`, so the loop keeps accepting
commands. -/
theorem bad_breakpoint_spec_rejected (getLine : Nat → Option String)
    (env : Env) (spec : String) (s : DebuggerState)
    (h : parse_address spec = none) :
    stepCommand getLine env (.Breakpoint spec) s =
      .next s ["fail to parse a usize from a hexadecimal string"] [] [] := by
  simp [stepCommand, h]

/-- Witness for C7, at the spec's own example `break zz`. -/
theorem bad_breakpoint_spec_rejected_witness :
    parse_address "zz" = none ∧
    stepCommand glNone envDefault (.Breakpoint "zz")
        { inferior := none, breakpoints := [4096], live := [] } =
      .next { inferior := none, breakpoints := [4096], live := [] }
        ["fail to parse a usize from a hexadecimal string"] [] [] :=
  ⟨by decide,
   bad_breakpoint_spec_rejected glNone envDefault "zz"
     { inferior := none, breakpoints := [4096], live := [] } (by decide)⟩

/-- C8: `Debugger::new` is fail-fast — on either `DwarfData::from_file`
error kind it exits with code 1 and a diagnostic naming the target, and
no error outcome ever returns a (partially initialized) debugger. -/
theorem new_fails_fast (target errFmt : String) :
    Debugger.new target (.error .ErrorOpeningFile) =
      .exit 1 ("Could not open file " ++ target) ∧
    Debugger.new target (.error (.DwarfFormatError errFmt)) =
      .exit 1 ("Could not debugging symbols from " ++ target ++ ": " ++ errFmt) ∧
    (∀ e : DwarfError, ∀ d : DebuggerState, Debugger.new target (.error e) ≠ .ok d) := by
  refine ⟨rfl, rfl, ?_⟩
  intro e d h
  cases e <;> simp [Debugger.new] at h

/-- C9: Continue with no inferior prints only the informational message
and changes nothing; Backtrace with no inferior prints nothing and
changes nothing; both re-enter the loop. -/
theorem no_inferior_commands_noop (getLine : Nat → Option String)
    (env : Env) (s : DebuggerState)
    (h : s.inferior = none) :
    stepCommand getLine env .Continue s =
      .next s ["There is no inferior running"] [] [] ∧
    stepCommand getLine env .Backtrace s = .next s [] [] [] := by
  simp [stepCommand, h]

/-- Witness for C9. -/
theorem no_inferior_commands_noop_witness :
    (({ inferior := none, breakpoints := [4096], live := [] } : DebuggerState).inferior
        = none) ∧
    stepCommand glNone envDefault .Continue
        { inferior := none, breakpoints := [4096], live := [] } =
      .next { inferior := none, breakpoints := [4096], live := [] }
        ["There is no inferior running"] [] [] ∧
    stepCommand glNone envDefault .Backtrace
        { inferior := none, breakpoints := [4096], live := [] } =
      .next { inferior := none, breakpoints := [4096], live := [] } [] [] [] :=
  ⟨rfl,
   no_inferior_commands_noop glNone envDefault
     { inferior := none, breakpoints := [4096], live := [] } rfl⟩

/-- C10: during Run with a live inferior, if the relaunch fails
(`Inferior::new` returns `None`), the old inferior is killed (its pid is
no longer live) but the slot is not cleared: it still holds the killed
inferior, so a subsequent Continue dispatches to `continue_exec` on that
dead process instead of reporting that no inferior is running. -/
theorem failed_relaunch_keeps_stale_inferior (getLine : Nat → Option String)
    (env env2 : Env) (args : List String) (s : DebuggerState) (inf : Inferior)
    (hinf : s.inferior = some inf)
    (hkill : env.killResult = .ok ())
    (hlaunch : env.launch s.breakpoints = none) :
    stepCommand getLine env (.Run args) s =
      .next { s with live := s.live.filter (· ≠ inf.pid) }
        ["Error starting subprocess"] [inf.pid] [] ∧
    ({ s with live := s.live.filter (· ≠ inf.pid) } : DebuggerState).inferior
        = some inf ∧
    inf.pid ∉ ({ s with live := s.live.filter (· ≠ inf.pid) } : DebuggerState).live ∧
    stepCommand getLine env2 .Continue { s with live := s.live.filter (· ≠ inf.pid) } =
      .next (continueExec getLine env2.contResult
               { s with live := s.live.filter (· ≠ inf.pid) }).1
            (continueExec getLine env2.contResult
               { s with live := s.live.filter (· ≠ inf.pid) }).2 [] [] := by
  refine ⟨by simp [stepCommand, hinf, hkill, hlaunch], by simpa using hinf, ?_, ?_⟩
  · simp [List.mem_filter]
  · simp only [stepCommand, hinf]

/-- Witness for C10: the stale slot makes the follow-up Continue print the
dead-process resume error, not the no-inferior message. -/
theorem failed_relaunch_keeps_stale_inferior_witness :
    (({ inferior := some ⟨1⟩, breakpoints := [4096], live := [1] } : DebuggerState).inferior
        = some ⟨1⟩) ∧
    envDefault.killResult = .ok () ∧
    envDefault.launch [4096] = none ∧
    stepCommand glNone envDefault (.Run [])
        { inferior := some ⟨1⟩, breakpoints := [4096], live := [1] } =
      .next { inferior := some ⟨1⟩, breakpoints := [4096],
              live := ([1] : List Nat).filter (· ≠ (1 : Nat)) }
        ["Error starting subprocess"] [1] [] :=
  ⟨rfl, rfl, rfl,
   (failed_relaunch_keeps_stale_inferior glNone envDefault envDefault []
     { inferior := some ⟨1⟩, breakpoints := [4096], live := [1] } ⟨1⟩
     rfl rfl rfl).1⟩

end Deet
